import Mathlib

/-!
Shallow embedding of the NAND flash block-device driver in main.c
(an ESP32 SPI NAND driver exposing LittleFS read/prog/erase/sync hooks).

Each driver routine is modelled as the sequence of SPI transactions and
delays it performs (its wire-level trace), together with the value it
returns to its caller.  The chip side of the bus is modelled by the
status bytes it answers to status-read commands and by the `esp_err_t`
results of the individual `spi_device_transmit` calls; the C code never
inspects the latter, and that is visible here in that no definition
reads the `errs` field.  The unbounded busy-poll loop in `wait_ready`
is given explicit fuel: the `Bool` component records whether the loop
exited within that fuel, so a run of the real code corresponds to a
fuel large enough for every poll loop to finish.
-/

/-- Geometry constant PAGE_SIZE from main.c. -/
def PAGE_SIZE : Nat := 2048

/-- Geometry constant PAGES_PER_BLOCK from main.c. -/
def PAGES_PER_BLOCK : Nat := 64

/-- Geometry constant BLOCK_SIZE = PAGE_SIZE * PAGES_PER_BLOCK from main.c. -/
def BLOCK_SIZE : Nat := PAGE_SIZE * PAGES_PER_BLOCK

/-- cfg->block_count set in initialize_lfs in main.c. -/
def BLOCK_COUNT : Nat := 1024

/-- Opcode CMD_WRITE_ENABLE. -/
def CMD_WRITE_ENABLE : Nat := 0x06

/-- Opcode CMD_LOAD_PROGRAM. -/
def CMD_LOAD_PROGRAM : Nat := 0x02

/-- Opcode CMD_PROGRAM_EXECUTE. -/
def CMD_PROGRAM_EXECUTE : Nat := 0x10

/-- Opcode CMD_READ_STATUS. -/
def CMD_READ_STATUS : Nat := 0x0F

/-- Opcode CMD_PAGE_DATA_READ. -/
def CMD_PAGE_DATA_READ : Nat := 0x13

/-- Opcode CMD_READ_DATA. -/
def CMD_READ_DATA : Nat := 0x03

/-- Opcode CMD_BLOCK_ERASE. -/
def CMD_BLOCK_ERASE : Nat := 0xD8

/-- Truncation to uint8_t, as performed by C casts to uint8. -/
def u8 (x : Nat) : Nat := x % 256

/-- Truncation to uint16_t. -/
def u16 (x : Nat) : Nat := x % 65536

/-- Truncation to uint32_t (all C arithmetic on uint32 operands). -/
def u32 (x : Nat) : Nat := x % 4294967296

/-- One observable action of the driver on its environment: an SPI
transaction sending the given tx bytes (`spi_device_transmit`), or a
`vTaskDelay` of the given number of milliseconds. -/
inductive SpiEvent where
  | transmit : List Nat → SpiEvent
  | delayMs : Nat → SpiEvent
deriving DecidableEq, Repr

/-- The environment of a driver call: `statuses i` is the status byte
the chip answers to the i-th status-read transaction of the current
poll loop, and `errs i` is the `esp_err_t` result of the i-th
`spi_device_transmit` call (0 is ESP_OK).  The C code discards every
such result, which the embedding reflects: no definition below reads
`errs`. -/
structure SpiEnv where
  statuses : Nat → Nat
  errs : Nat → Int

/-- The two tx bytes of the status-read transaction in wait_ready:
opcode 0x0F followed by the dummy byte 0xC0. -/
def statusReadTx : List Nat := [CMD_READ_STATUS, 0xC0]

/-- One iteration of the wait_ready do-while loop: one status-read
transaction followed by a 1 ms delay (the busy bit is only inspected
after both). -/
def pollRound : List SpiEvent := [SpiEvent.transmit statusReadTx, SpiEvent.delayMs 1]

/-- wait_ready from main.c, lines 31-45, with explicit fuel.  The C
loop is `do { spi_device_transmit(status-read); vTaskDelay(1ms); }
while (status & 0x01);` — it transmits and delays first and only then
checks bit 0 of the received status byte.  Arguments: the chip's
status-byte answers, the index of the next status read, and the fuel.
Returns the trace of events and whether the loop exited within the
fuel. -/
def wait_ready (statuses : Nat → Nat) : Nat → Nat → List SpiEvent × Bool
  | _, 0 => ([], false)
  | i, fuel + 1 =>
    if u8 (statuses i) % 2 = 1 then
      let r := wait_ready statuses (i + 1) fuel
      (pollRound ++ r.1, r.2)
    else
      (pollRound, true)

/-- write_enable from main.c, lines 47-55: a single one-byte
transaction carrying opcode 0x06 and no address bytes. -/
def write_enable : List SpiEvent := [SpiEvent.transmit [CMD_WRITE_ENABLE]]

/-- The three address bytes `{row >> 16, row >> 8, row}` (each cast to
uint8) that erase_block, program_execute and page_data_read place
after their opcode; `row` is already a uint32 value. -/
def rowAddrBytes (row : Nat) : List Nat := [u8 (row / 65536), u8 (row / 256), u8 row]

/-- The row address a 3-byte big-endian address field denotes. -/
def rowAddrVal (bs : List Nat) : Nat :=
  match bs with
  | [b2, b1, b0] => b2 * 65536 + b1 * 256 + b0
  | _ => 0

/-- erase_block from main.c, lines 57-68: write_enable, then a 4-byte
transaction `{0xD8, row >> 16, row >> 8, row}` with
`row = block * PAGES_PER_BLOCK` computed in uint32, then wait_ready. -/
def erase_block (env : SpiEnv) (fuel block : Nat) : List SpiEvent × Bool :=
  let row_addr := u32 (block * PAGES_PER_BLOCK)
  let w := wait_ready env.statuses 0 fuel
  (write_enable ++ [SpiEvent.transmit (CMD_BLOCK_ERASE :: rowAddrBytes row_addr)] ++ w.1, w.2)

/-- load_program_data from main.c, lines 70-82: a single transaction
whose tx buffer is `{0x02, col >> 8, col, 0}` (col is uint16_t)
followed by the payload bytes.  No write_enable and no wait_ready
happen here. -/
def load_program_data (col : Nat) (data : List Nat) : List SpiEvent :=
  let c := u16 col
  [SpiEvent.transmit ([CMD_LOAD_PROGRAM, u8 (c / 256), u8 c, 0] ++ data)]

/-- program_execute from main.c, lines 84-94: write_enable, then a
4-byte transaction `{0x10, page >> 16, page >> 8, page}` (page is
uint32_t), then wait_ready. -/
def program_execute (env : SpiEnv) (fuel page : Nat) : List SpiEvent × Bool :=
  let p := u32 page
  let w := wait_ready env.statuses 0 fuel
  (write_enable ++ [SpiEvent.transmit (CMD_PROGRAM_EXECUTE :: rowAddrBytes p)] ++ w.1, w.2)

/-- page_data_read from main.c, lines 96-105: a 4-byte transaction
`{0x13, page >> 16, page >> 8, page}`, then wait_ready (no
write_enable). -/
def page_data_read (env : SpiEnv) (fuel page : Nat) : List SpiEvent × Bool :=
  let p := u32 page
  let w := wait_ready env.statuses 0 fuel
  ([SpiEvent.transmit (CMD_PAGE_DATA_READ :: rowAddrBytes p)] ++ w.1, w.2)

/-- read_data from main.c, lines 107-117: a single transaction whose
tx command bytes are `{0x03, col >> 8, col, 0x00}`; the transaction
additionally clocks `len` response bytes into the caller's buffer. -/
def read_data (col len : Nat) : List SpiEvent :=
  let c := u16 col
  [SpiEvent.transmit [CMD_READ_DATA, u8 (c / 256), u8 c, 0]]

/-- The address decomposition computed identically in lfs_read (lines
139-140) and lfs_prog (lines 149-150) of main.c:
`uint32_t page = block * PAGES_PER_BLOCK + offset / PAGE_SIZE;`
`uint16_t col = offset % PAGE_SIZE;`. -/
def decompose (block offset : Nat) : Nat × Nat :=
  (u32 (block * PAGES_PER_BLOCK + offset / PAGE_SIZE), u16 (offset % PAGE_SIZE))

/-- lfs_read from main.c, lines 136-144: decompose, page_data_read,
read_data, and `return 0` unconditionally (the results of the
underlying transmits are discarded).  Result: trace, whether every
internal poll loop finished, and the int returned to LittleFS. -/
def lfs_read (env : SpiEnv) (fuel block offset size : Nat) : List SpiEvent × Bool × Int :=
  let page := (decompose block offset).1
  let col := (decompose block offset).2
  let r := page_data_read env fuel page
  (r.1 ++ read_data col size, r.2, 0)

/-- lfs_prog from main.c, lines 146-154: decompose, then
load_program_data at the column, then program_execute at the page
(which itself performs write_enable and wait_ready), and `return 0`
unconditionally. -/
def lfs_prog (env : SpiEnv) (fuel block offset : Nat) (data : List Nat) : List SpiEvent × Bool × Int :=
  let page := (decompose block offset).1
  let col := (decompose block offset).2
  let r := program_execute env fuel page
  (load_program_data col data ++ r.1, r.2, 0)

/-- lfs_erase from main.c, lines 156-160: erase_block on the given
block (no range check of any kind), and `return 0` unconditionally. -/
def lfs_erase (env : SpiEnv) (fuel block : Nat) : List SpiEvent × Bool × Int :=
  let r := erase_block env fuel block
  (r.1, r.2, 0)

/-- lfs_sync from main.c, lines 162-165: the body is `return 0;` — no
transaction, no state change. -/
def lfs_sync : List SpiEvent × Bool × Int := ([], true, 0)

/-- Number of status-read transactions in a trace. -/
def statusReads (tr : List SpiEvent) : Nat :=
  tr.countP fun e => decide (e = SpiEvent.transmit statusReadTx)

/-- The command order for program_page according to the words of the
spec (§4.3): assert write-enable, then load the payload at the column,
then program-execute addressed by the page, then wait_ready.  Stated
for comparison with the trace the code actually produces. -/
def progSpecTrace (env : SpiEnv) (fuel block offset : Nat) (data : List Nat) : List SpiEvent :=
  write_enable
    ++ load_program_data (decompose block offset).2 data
    ++ [SpiEvent.transmit (CMD_PROGRAM_EXECUTE :: rowAddrBytes (u32 (decompose block offset).1))]
    ++ (wait_ready env.statuses 0 fuel).1

/-- Helper: a uint32 quantity below the modulus is unchanged by u32. -/
theorem u32_eq_of_lt {x : Nat} (h : x < 4294967296) : u32 x = x :=
  Nat.mod_eq_of_lt h

/-- Helper: a uint16 quantity below the modulus is unchanged by u16. -/
theorem u16_eq_of_lt {x : Nat} (h : x < 65536) : u16 x = x :=
  Nat.mod_eq_of_lt h

/-- C1: the block-device operations of main.c report success
unconditionally: lfs_read, lfs_prog, lfs_erase and lfs_sync return 0
for every environment — in particular for one in which every
spi_device_transmit reports a transport fault — because the results of
the underlying NAND transactions are discarded.  This contradicts the
claimed propagation of the first error to the filesystem caller. -/
theorem block_ops_return_success_unconditionally (env : SpiEnv) (fuel block offset size : Nat)
    (data : List Nat) :
    (lfs_read env fuel block offset size).2.2 = 0 ∧
    (lfs_prog env fuel block offset data).2.2 = 0 ∧
    (lfs_erase env fuel block).2.2 = 0 ∧
    lfs_sync.2.2 = 0 :=
  ⟨rfl, rfl, rfl, rfl⟩

/-- C2: the (page, column) decomposition computed by lfs_read and
lfs_prog is total and loss-less: for every block of the configured
geometry and every offset below BLOCK_SIZE,
page * PAGE_SIZE + column = block * BLOCK_SIZE + offset, and
column < PAGE_SIZE. -/
theorem decompose_lossless (block offset : Nat) (hb : block < BLOCK_COUNT)
    (ho : offset < BLOCK_SIZE) :
    (decompose block offset).1 * PAGE_SIZE + (decompose block offset).2 =
      block * BLOCK_SIZE + offset ∧
    (decompose block offset).2 < PAGE_SIZE := by
  simp only [decompose, u32, u16, PAGE_SIZE, PAGES_PER_BLOCK, BLOCK_SIZE, BLOCK_COUNT] at *
  omega

/-- Witness for decompose_lossless at block 1, offset 5000. -/
theorem decompose_lossless_witness :
    (decompose 1 5000).1 * PAGE_SIZE + (decompose 1 5000).2 = 1 * BLOCK_SIZE + 5000 ∧
    (decompose 1 5000).2 < PAGE_SIZE :=
  decompose_lossless 1 5000 (by decide) (by decide)

/-- C4: out-of-range addresses are not rejected.  With block_count =
1024, the call lfs_erase(block = 1024) does not fail with any
geometry error: it issues write-enable and then the block-erase
command addressed at row 65536 — one block beyond the device — and
returns 0 (success).  (The environment here answers ready status and
a transport fault code -1 to every transaction; neither matters to
the code.) -/
theorem erase_out_of_range_not_rejected :
    lfs_erase ⟨fun _ => 0, fun _ => -1⟩ 1 BLOCK_COUNT =
      ([SpiEvent.transmit [CMD_WRITE_ENABLE],
        SpiEvent.transmit [CMD_BLOCK_ERASE, 1, 0, 0],
        SpiEvent.transmit statusReadTx, SpiEvent.delayMs 1], true, 0) := by
  decide

/-- C8: lfs_sync issues no command to the chip, changes nothing and
returns the success status 0. -/
theorem lfs_sync_noop : lfs_sync = ([], true, 0) := rfl

/-- Helper: a run of the wait_ready loop that sees n busy status bytes
starting at index i and then a ready byte produces exactly n + 1 poll
rounds and exits, provided the fuel covers it. -/
theorem wait_ready_run (statuses : Nat → Nat) :
    ∀ n i fuel, (∀ k, k < n → u8 (statuses (i + k)) % 2 = 1) →
      u8 (statuses (i + n)) % 2 = 0 → n < fuel →
      wait_ready statuses i fuel = ((List.replicate (n + 1) pollRound).flatten, true) := by
  intro n
  induction n with
  | zero =>
    intro i fuel _ hready hfuel
    match fuel, hfuel with
    | f + 1, _ =>
      simp only [wait_ready]
      rw [if_neg (by simp only [Nat.add_zero] at hready; omega)]
      simp
  | succ m ih =>
    intro i fuel hbusy hready hfuel
    match fuel, hfuel with
    | f + 1, hfuel =>
      simp only [wait_ready]
      rw [if_pos (by have := hbusy 0 (Nat.succ_pos m); simpa using this)]
      have hrec := ih (i + 1) f
        (fun k hk => by have := hbusy (k + 1) (Nat.succ_lt_succ hk); simpa [Nat.add_assoc, Nat.add_comm 1 k] using this)
        (by have : i + 1 + m = i + (m + 1) := by omega
            rw [this]; exact hready)
        (by omega)
      rw [hrec]
      simp [List.replicate_succ, List.flatten_cons]

/-- Helper: a joined replication of poll rounds contains exactly one
status read per round. -/
theorem statusReads_join_replicate (m : Nat) :
    statusReads (List.replicate m pollRound).flatten = m := by
  induction m with
  | zero => rfl
  | succ k ih =>
    simp only [List.replicate_succ, List.flatten_cons, statusReads, List.countP_append] at *
    rw [ih]
    have h1 : List.countP (fun e => decide (e = SpiEvent.transmit statusReadTx)) pollRound = 1 := rfl
    omega

/-- C3: wait_ready in main.c is NOT bounded.  It takes no bound of any
kind (its C signature is `static void wait_ready(void)`), and for
every status sequence in which the busy bit never clears, the loop has
not exited after any number of iterations whatsoever: there is no
retry count or timeout at which it stops and reports a timeout
error. -/
theorem wait_ready_never_exits_while_busy (statuses : Nat → Nat)
    (hbusy : ∀ i, u8 (statuses i) % 2 = 1) :
    ∀ fuel i, (wait_ready statuses i fuel).2 = false := by
  intro fuel
  induction fuel with
  | zero => intro i; rfl
  | succ f ih =>
    intro i
    simp only [wait_ready]
    rw [if_pos (hbusy i)]
    exact ih (i + 1)

/-- Witness for wait_ready_never_exits_while_busy: a chip that always
answers status 0x01 keeps the loop running past 5 iterations. -/
theorem wait_ready_never_exits_while_busy_witness :
    (wait_ready (fun _ => 1) 0 5).2 = false :=
  wait_ready_never_exits_while_busy (fun _ => 1) (fun _ => rfl) 5 0

/-- C7: wait_ready terminates successfully at the first poll whose
status byte has bit 0 clear: if the first n status bytes are busy and
the byte at index n is ready, the loop performs exactly n + 1 poll
rounds (each one status-read transaction plus a 1 ms delay) and exits,
so the trace contains exactly n + 1 status-read commands. -/
theorem wait_ready_first_ready (statuses : Nat → Nat) (n fuel : Nat)
    (hbusy : ∀ k, k < n → u8 (statuses k) % 2 = 1)
    (hready : u8 (statuses n) % 2 = 0)
    (hfuel : n < fuel) :
    wait_ready statuses 0 fuel = ((List.replicate (n + 1) pollRound).flatten, true) ∧
    statusReads (wait_ready statuses 0 fuel).1 = n + 1 := by
  have h := wait_ready_run statuses n 0 fuel (by simpa using hbusy) (by simpa using hready) hfuel
  refine ⟨h, ?_⟩
  rw [h]
  exact statusReads_join_replicate (n + 1)

/-- Witness for wait_ready_first_ready: two busy bytes then a ready
byte yield exactly three poll rounds. -/
theorem wait_ready_first_ready_witness :
    wait_ready (fun i => if i < 2 then 1 else 0) 0 4 =
      ((List.replicate 3 pollRound).flatten, true) ∧
    statusReads (wait_ready (fun i => if i < 2 then 1 else 0) 0 4).1 = 3 :=
  wait_ready_first_ready (fun i => if i < 2 then 1 else 0) 2 4 (by decide) (by decide) (by decide)

/-- C9: the loop in wait_ready is do-while, so for every status
sequence the trace begins with one status-read transaction and one
1 ms delay — issued before the busy bit is ever inspected — and even a
chip that is ready at the very first status byte still costs exactly
one status-read and one delay. -/
theorem wait_ready_always_polls_first (statuses : Nat → Nat) (fuel : Nat) (hfuel : 1 ≤ fuel) :
    ((wait_ready statuses 0 fuel).1.take 2 = pollRound ∧ 1 ≤ statusReads (wait_ready statuses 0 fuel).1) ∧
    (u8 (statuses 0) % 2 = 0 → wait_ready statuses 0 fuel = (pollRound, true)) := by
  match fuel, hfuel with
  | f + 1, _ =>
    refine ⟨?_, ?_⟩
    · simp only [wait_ready]
      by_cases h : u8 (statuses 0) % 2 = 1
      · rw [if_pos h]
        refine ⟨rfl, ?_⟩
        simp [statusReads, pollRound, List.countP_cons]
      · rw [if_neg h]
        exact ⟨rfl, by decide⟩
    · intro h0
      simp only [wait_ready]
      rw [if_neg (by omega)]

/-- Witness for wait_ready_always_polls_first: an immediately-ready
chip still gets exactly one poll round. -/
theorem wait_ready_always_polls_first_witness :
    (((wait_ready (fun _ => 0) 0 1).1.take 2 = pollRound ∧
        1 ≤ statusReads (wait_ready (fun _ => 0) 0 1).1) ∧
      (u8 0 % 2 = 0 → wait_ready (fun _ => 0) 0 1 = (pollRound, true))) ∧
    wait_ready (fun _ => 0) 0 1 = (pollRound, true) :=
  ⟨wait_ready_always_polls_first (fun _ => 0) 1 (by decide),
   (wait_ready_always_polls_first (fun _ => 0) 1 (by decide)).2 (by decide)⟩

/-- C5 counterexample: the claimed order (write-enable first, then the
load of the payload) is false at a concrete input.  For a call of the
prog hook at block 0, offset 0 with payload byte 0xAB against an
immediately-ready chip, the trace the code produces differs from the
spec-ordered trace: the code transmits the load-program command FIRST
and asserts write-enable only afterwards (inside program_execute). -/
theorem lfs_prog_spec_order_fails :
    (lfs_prog ⟨fun _ => 0, fun _ => 0⟩ 1 0 0 [0xAB]).1 ≠
      progSpecTrace ⟨fun _ => 0, fun _ => 0⟩ 1 0 0 [0xAB] ∧
    (lfs_prog ⟨fun _ => 0, fun _ => 0⟩ 1 0 0 [0xAB]).1 =
      [SpiEvent.transmit [CMD_LOAD_PROGRAM, 0, 0, 0, 0xAB],
       SpiEvent.transmit [CMD_WRITE_ENABLE],
       SpiEvent.transmit [CMD_PROGRAM_EXECUTE, 0, 0, 0],
       SpiEvent.transmit statusReadTx, SpiEvent.delayMs 1] := by
  decide

/-- C5 amended: for every environment, fuel, block, offset and payload,
the prog hook issues its commands in the order: load-program placing
the payload at the column FIRST, then write-enable, then the
program-execute command addressed by the page, then the wait_ready
poll loop — write-enable immediately precedes program-execute, not the
load of the payload. -/
theorem lfs_prog_command_order (env : SpiEnv) (fuel block offset : Nat) (data : List Nat) :
    (lfs_prog env fuel block offset data).1 =
      load_program_data (decompose block offset).2 data ++
        (write_enable ++
          ([SpiEvent.transmit
              (CMD_PROGRAM_EXECUTE :: rowAddrBytes (u32 (decompose block offset).1))] ++
            (wait_ready env.statuses 0 fuel).1)) := rfl

/-- C6: for every block of the configured geometry, erase_block
transmits the write-enable command (opcode 0x06, no address bytes),
then one transaction with opcode 0xD8 followed by exactly three
address bytes that encode the row address block * PAGES_PER_BLOCK in
big-endian order, then runs wait_ready. -/
theorem erase_block_wire_format (env : SpiEnv) (fuel block : Nat) (hb : block < BLOCK_COUNT) :
    (erase_block env fuel block).1 =
      SpiEvent.transmit [CMD_WRITE_ENABLE] ::
        SpiEvent.transmit (CMD_BLOCK_ERASE :: rowAddrBytes (block * PAGES_PER_BLOCK)) ::
        (wait_ready env.statuses 0 fuel).1 ∧
    rowAddrVal (rowAddrBytes (block * PAGES_PER_BLOCK)) = block * PAGES_PER_BLOCK ∧
    (rowAddrBytes (block * PAGES_PER_BLOCK)).length = 3 := by
  have hr : u32 (block * PAGES_PER_BLOCK) = block * PAGES_PER_BLOCK := by
    apply u32_eq_of_lt
    simp only [PAGES_PER_BLOCK]
    simp only [BLOCK_COUNT] at hb
    omega
  refine ⟨?_, ?_, rfl⟩
  · simp only [erase_block, hr]
    rfl
  · simp only [rowAddrBytes, rowAddrVal, u8]
    simp only [PAGES_PER_BLOCK]
    simp only [BLOCK_COUNT] at hb
    omega

/-- Witness for erase_block_wire_format at block 3 against an
immediately-ready chip. -/
theorem erase_block_wire_format_witness :
    (erase_block ⟨fun _ => 0, fun _ => 0⟩ 1 3).1 =
      SpiEvent.transmit [CMD_WRITE_ENABLE] ::
        SpiEvent.transmit (CMD_BLOCK_ERASE :: rowAddrBytes (3 * PAGES_PER_BLOCK)) ::
        (wait_ready (fun _ => 0) 0 1).1 ∧
    rowAddrVal (rowAddrBytes (3 * PAGES_PER_BLOCK)) = 3 * PAGES_PER_BLOCK ∧
    (rowAddrBytes (3 * PAGES_PER_BLOCK)).length = 3 :=
  erase_block_wire_format ⟨fun _ => 0, fun _ => 0⟩ 1 3 (by decide)

/-- C10: both program_execute and page_data_read place after their
opcode the three big-endian bytes of the page row address; the value
those bytes denote is page mod 2^24, the encoding is loss-less exactly
when page < 2^24, and in particular every page of the reference
geometry (65536 total pages) is encoded loss-lessly. -/
theorem row_address_encoding (env : SpiEnv) (fuel page : Nat) (hp : page < 4294967296) :
    (program_execute env fuel page).1 =
      SpiEvent.transmit [CMD_WRITE_ENABLE] ::
        SpiEvent.transmit (CMD_PROGRAM_EXECUTE :: rowAddrBytes page) ::
        (wait_ready env.statuses 0 fuel).1 ∧
    (page_data_read env fuel page).1 =
      SpiEvent.transmit (CMD_PAGE_DATA_READ :: rowAddrBytes page) ::
        (wait_ready env.statuses 0 fuel).1 ∧
    rowAddrVal (rowAddrBytes page) = page % 16777216 ∧
    (rowAddrVal (rowAddrBytes page) = page ↔ page < 16777216) ∧
    (page < 65536 → rowAddrVal (rowAddrBytes page) = page) := by
  have hu : u32 page = page := u32_eq_of_lt hp
  have key : rowAddrVal (rowAddrBytes page) = page % 16777216 := by
    simp only [rowAddrBytes, rowAddrVal, u8]
    omega
  refine ⟨?_, ?_, key, ?_, ?_⟩
  · simp only [program_execute, hu]
    rfl
  · simp only [page_data_read, hu]
    rfl
  · rw [key]
    omega
  · intro h
    rw [key]
    omega

/-- Witness for row_address_encoding at page 20000000, a value above
2^24 whose encoding wraps to 20000000 mod 2^24 = 3222784. -/
theorem row_address_encoding_witness :
    (program_execute ⟨fun _ => 0, fun _ => 0⟩ 1 20000000).1 =
      SpiEvent.transmit [CMD_WRITE_ENABLE] ::
        SpiEvent.transmit (CMD_PROGRAM_EXECUTE :: rowAddrBytes 20000000) ::
        (wait_ready (fun _ => 0) 0 1).1 ∧
    (page_data_read ⟨fun _ => 0, fun _ => 0⟩ 1 20000000).1 =
      SpiEvent.transmit (CMD_PAGE_DATA_READ :: rowAddrBytes 20000000) ::
        (wait_ready (fun _ => 0) 0 1).1 ∧
    rowAddrVal (rowAddrBytes 20000000) = 20000000 % 16777216 ∧
    (rowAddrVal (rowAddrBytes 20000000) = 20000000 ↔ 20000000 < 16777216) ∧
    (20000000 < 65536 → rowAddrVal (rowAddrBytes 20000000) = 20000000) :=
  row_address_encoding ⟨fun _ => 0, fun _ => 0⟩ 1 20000000 (by decide)
